import Mathlib

/-!
Verification of the game-session orchestration core (`Game` class of the
three-game-engine repository): construction, `_init`, `loadScene`, `play`,
`pause`, and the game-object type/class registry.

The embedding is a shallow one: the mutable `Game` instance becomes an
explicit state record threaded through the operations; asynchronous asset
loads (`AssetStore.load`, `Scene.load`) become an environment of load
oracles returning `Except`; a thrown JS exception becomes a `some` error
paired with the state as it stands at the throw (JS mutations performed
before a throw persist on the object, so every operation returns its
final state even on the error path).  Lifecycle hooks are recorded as an
event trace so that ordering claims can be stated as trace equations.
-/

/-- Errors thrown by the `Game` class (each corresponds to a
`throw new Error(...)` site, or to a failed asset load propagating up). -/
inductive GameError
  | alreadyInitialized
  | concurrentLoad
  | sceneNameNotString
  | unknownScene (name : String)
  | noScenesDefined
  | constructorArg
  | assetLoadError (path : String)
  | sceneLoadError
deriving Repr, DecidableEq

/-- A loaded JSON asset, identified by its resolved path
(the `data` payloads that matter are modelled separately). -/
structure JSONAsset where
  path : String
deriving Repr, DecidableEq

/-- Parsed contents of `game.json` (`GameJSON` in `types.d.ts`).
The `scenes` and `gameObjectTypes` objects are ordered string-keyed
mappings; JS objects preserve insertion order for string keys, so they
are modelled as association lists.  An absent mapping is `[]`. -/
structure GameJSON where
  initialScene : Option String
  scenes : List (String × String)
  gameObjectTypes : List (String × String)
deriving Repr, DecidableEq

/-- A registered game-object class (JS classes are opaque truthy values). -/
structure GOClass where
  id : Nat
deriving Repr, DecidableEq

/-- The runtime `Scene` instance, reduced to the fields the session-level
claims observe: the JSON path it was constructed from, whether `load`
has completed, whether `afterLoaded` has fired, and the names of its
game objects (the tree flattened in pre-order). -/
structure SceneM where
  path : String
  loaded : Bool
  afterLoadedFired : Bool
  gameObjects : List String
deriving Repr, DecidableEq

/-- The `Renderer` collaborator, at its interface boundary: it only
receives `play()` and `pause()`. -/
structure RendererM where
  playing : Bool
deriving Repr, DecidableEq

/-- The `Game` instance state (fields of the `Game` class).
`renderer` is `none` until `_init` constructs it (the field is
`undefined`, hence falsy, before initialization). -/
structure Game where
  initialized : Bool
  baseURL : Option String
  dirHandle : Option Nat
  gameJSONAsset : Option GameJSON
  renderer : Option RendererM
  scene : Option SceneM
  gameObjectTypes : List (String × JSONAsset)
  gameObjectClasses : List (String × GOClass)
  loadingScene : Bool
deriving Repr, DecidableEq

/-- Load oracles. `loadGameJSON` models `assetStore.load('game.json')`;
`loadTypeAsset` models `assetStore.load(path)` for a game-object-type
descriptor; `loadSceneJSON` models `Scene.load` fetching and building the
scene at a path, returning the pre-order list of game-object names.

Modelled from the spec: `AssetStore` and `Scene.load` are repository code
outside the orchestration core; per the spec they fetch asynchronously,
fail by throwing, and `Scene.load` builds the whole tree before returning,
firing no lifecycle hooks itself. -/
structure Env where
  loadGameJSON : Except Unit GameJSON
  loadTypeAsset : String → Except Unit JSONAsset
  loadSceneJSON : String → Except Unit (List String)

/-- JS truthiness of a possibly-absent string property: `undefined` and
`""` are falsy (`if (!sceneJSONassetPath) throw ...`). -/
def jsTruthy (o : Option String) : Option String :=
  match o with
  | some s => if s = "" then none else some s
  | none => none

/-- JS `a || b` for a possibly-absent string `a`
(`this.gameJSONAsset.data.initialScene || sceneNames[0]`). -/
def jsOr (o : Option String) (d : String) : String :=
  match o with
  | some s => if s = "" then d else s
  | none => d

/-- JS property assignment `m[k] = v`: replaces the value in place when
the key exists, appends the key otherwise (insertion order preserved). -/
def jsInsert (m : List (String × α)) (k : String) (v : α) : List (String × α) :=
  if m.any (fun p => p.1 == k) then
    m.map (fun p => if p.1 == k then (k, v) else p)
  else
    m ++ [(k, v)]

/-- The value the constructor argument can take at runtime: a string base
URL, a `FileSystemDirectoryHandle` (opaque, identified by a number), or
any other JS value. -/
inductive CtorArg
  | str (s : String)
  | dirHandle (h : Nat)
  | other
deriving Repr, DecidableEq

/-- The argument actually passed to `loadScene` at runtime: the declared
type is `string` but JS callers can pass anything, and the code checks
`typeof sceneName !== 'string'` explicitly. -/
inductive JSArg
  | str (s : String)
  | nonString
deriving Repr, DecidableEq

/-- Lifecycle-hook and load events emitted during `loadScene`, in the
order the code performs them. -/
inductive Event
  | sceneBeforeUnloaded (scenePath : String)
  | objBeforeUnloaded (objName : String)
  | sceneLoadStart (scenePath : String)
  | sceneLoadFinish (scenePath : String)
  | sceneAfterLoaded (scenePath : String)
  | objAfterLoaded (objName : String)
deriving Repr, DecidableEq

/-- Result of a `loadScene` call: the state once the call settles, the
error it threw (if any), and the trace of lifecycle/load events. -/
structure LoadResult where
  game : Game
  err : Option GameError
  events : List Event
deriving Repr, DecidableEq

/-- The `Game` constructor (part_000 lines 31-56): throws synchronously
unless the first argument is a string or a directory handle; a string
base URL has one trailing `/` stripped (`slice(0, length - 1)`); exactly
one of `baseURL` / `dirHandle` is set.  The JS test `endsWith('/')` for
the one-character suffix is the last-character test, embedded as
`s.back == '/'` (equivalent, and evaluable in the kernel). -/
def Game.construct (arg : CtorArg) : Except GameError Game :=
  match arg with
  | .other => .error .constructorArg
  | .str s =>
      .ok { initialized := false
            baseURL := some (if s.back == '/' then s.dropRight 1 else s)
            dirHandle := none
            gameJSONAsset := none
            renderer := none
            scene := none
            gameObjectTypes := []
            gameObjectClasses := []
            loadingScene := false }
  | .dirHandle h =>
      .ok { initialized := false
            baseURL := none
            dirHandle := some h
            gameJSONAsset := none
            renderer := none
            scene := none
            gameObjectTypes := []
            gameObjectClasses := []
            loadingScene := false }

/-- The `for (const gameObjectType in gameObjectTypes)` loop of `_init`
(part_000 lines 69-72): loads each declared type descriptor sequentially
in manifest order, registering each as it arrives (`this.gameObjectTypes[t]
= await load(path)`); the first failing load aborts the loop, keeping the
registrations already made. -/
def loadTypesLoop (env : Env) :
    List (String × String) → List (String × JSONAsset) →
    List (String × JSONAsset) × Option GameError
  | [], acc => (acc, none)
  | (n, p) :: rest, acc =>
    match env.loadTypeAsset p with
    | .error _ => (acc, some (.assetLoadError p))
    | .ok a => loadTypesLoop env rest (jsInsert acc n a)

/-- `Game._init` (part_000 lines 58-78): guard against double init, load
`game.json`, load every declared game-object type, then construct the
renderer and set `initialized`.  On any failure the state mutated so far
persists and `initialized` stays false. -/
def Game._init (env : Env) (g : Game) : Game × Option GameError :=
  if g.initialized then (g, some .alreadyInitialized)
  else
    match env.loadGameJSON with
    | .error _ => (g, some (.assetLoadError "game.json"))
    | .ok mjson =>
      let g1 := { g with gameJSONAsset := some mjson }
      let res := loadTypesLoop env mjson.gameObjectTypes g1.gameObjectTypes
      let g2 := { g1 with gameObjectTypes := res.1 }
      match res.2 with
      | some e => (g2, some e)
      | none =>
        ({ g2 with renderer := some { playing := false }, initialized := true }, none)

/-- `registerGameObjectClasses` (part_000 lines 80-84): JS `for..in`
assignment of every entry into `this.gameObjectClasses`. -/
def Game.registerGameObjectClasses (g : Game) (types : List (String × GOClass)) : Game :=
  { g with gameObjectClasses :=
      types.foldl (fun m np => jsInsert m np.1 np.2) g.gameObjectClasses }

/-- `getGameObjectTypeJSON` (part_000 lines 86-88): plain property read;
an absent key yields `undefined` (no descriptor). -/
def Game.getGameObjectTypeJSON (g : Game) (type : String) : Option JSONAsset :=
  g.gameObjectTypes.lookup type

/-- `getGameObjectClass` (part_000 lines 90-93): `klass || null` — an
absent key yields `null`. -/
def Game.getGameObjectClass (g : Game) (type : String) : Option GOClass :=
  g.gameObjectClasses.lookup type

/-- `loadScene`, lookup-and-load stage (part_000 lines 122-140): resolve
the scene path in `game.json` (falsy path throws `UnknownScene`), assign
`this.scene` to the new `Scene` BEFORE awaiting its load, and only on
load success clear `loadingScene` and fire the `afterLoaded` hooks. -/
def loadSceneStage4 (env : Env) (g : Game) (name : String) (evs : List Event) : LoadResult :=
  match jsTruthy ((((g.gameJSONAsset).map GameJSON.scenes).getD []).lookup name) with
  | none => ⟨g, some (.unknownScene name), evs⟩
  | some path =>
    let fresh : SceneM :=
      { path := path, loaded := false, afterLoadedFired := false, gameObjects := [] }
    let g3 := { g with scene := some fresh }
    match env.loadSceneJSON path with
    | .error _ => ⟨g3, some .sceneLoadError, evs ++ [.sceneLoadStart path]⟩
    | .ok objs =>
      let done : SceneM :=
        { path := path, loaded := true, afterLoadedFired := true, gameObjects := objs }
      ⟨{ g3 with scene := some done, loadingScene := false },
       none,
       evs ++ [.sceneLoadStart path, .sceneLoadFinish path, .sceneAfterLoaded path]
           ++ objs.map .objAfterLoaded⟩

/-- `loadScene`, unload stage (part_000 lines 111-120): if a scene is
attached, fire its `beforeUnloaded`, then every contained object's
`beforeUnloaded` (pre-order), detach it and clear the slot. -/
def loadSceneStage3 (env : Env) (g : Game) (name : String) : LoadResult :=
  match g.scene with
  | some s =>
    loadSceneStage4 env { g with scene := none } name
      (Event.sceneBeforeUnloaded s.path :: s.gameObjects.map Event.objBeforeUnloaded)
  | none => loadSceneStage4 env g name []

/-- `loadScene`, stage after the guard (part_000 lines 101-107): the
non-string check, then auto-init.  An error return here happens with
`loadingScene` already set to true. -/
def loadSceneStage2 (env : Env) (g : Game) (arg : JSArg) : LoadResult :=
  match arg with
  | .nonString => ⟨g, some .sceneNameNotString, []⟩
  | .str name =>
    match (if g.initialized then (g, none) else Game._init env g) with
    | (g2, some e) => ⟨g2, some e, []⟩
    | (g2, none) => loadSceneStage3 env g2 name

/-- `loadScene` (part_000 lines 95-141): single-flight guard, then the
staged body.  Note the guard flag is set before any check and is cleared
only on the success path (line 131). -/
def Game.loadScene (env : Env) (g : Game) (arg : JSArg) : LoadResult :=
  if g.loadingScene then ⟨g, some .concurrentLoad, []⟩
  else loadSceneStage2 env { g with loadingScene := true } arg

/-- `this.renderer.play()` at the end of `play` (part_000 line 163). -/
def rendererPlay (g : Game) : Game :=
  { g with renderer := g.renderer.map fun r => { r with playing := true } }

/-- `play`, after auto-init (part_000 lines 155-163): with a scene active,
just start the renderer; otherwise pick `initialScene || firstSceneName`,
load it, and start the renderer only if that load succeeded. -/
def playStage2 (env : Env) (g : Game) : Game × Option GameError :=
  match g.scene with
  | some _ => (rendererPlay g, none)
  | none =>
    match (((g.gameJSONAsset).map GameJSON.scenes).getD []) with
    | [] => (g, some .noScenesDefined)
    | (n, _) :: _ =>
      let initial := jsOr (((g.gameJSONAsset).map GameJSON.initialScene).getD none) n
      match Game.loadScene env g (.str initial) with
      | ⟨g2, some e, _⟩ => (g2, some e)
      | ⟨g2, none, _⟩ => (rendererPlay g2, none)

/-- `play` (part_000 lines 151-164). -/
def Game.play (env : Env) (g : Game) : Game × Option GameError :=
  match (if g.initialized then (g, none) else Game._init env g) with
  | (g2, some e) => (g2, some e)
  | (g2, none) => playStage2 env g2

/-- `Renderer.pause()` at its interface boundary.
Modelled from the spec: the renderer collaborator only exposes
`play`/`pause` of its render loop. -/
def RendererM.pause (r : RendererM) : RendererM :=
  { r with playing := false }

/-- `pause` (part_000 lines 166-170): `if (this.renderer)` then delegate. -/
def Game.pause (g : Game) : Game :=
  match g.renderer with
  | none => g
  | some r => { g with renderer := some r.pause }

/-! ### Concrete fixtures used by counterexamples and witnesses -/

/-- Manifest with a single scene `main` and no game-object types. -/
def manifest0 : GameJSON :=
  { initialScene := none, scenes := [("main", "main.json")], gameObjectTypes := [] }

/-- Environment where every load succeeds; the scene at any path contains
a single game object `Box`. -/
def env0 : Env :=
  { loadGameJSON := .ok manifest0
    loadTypeAsset := fun p => .ok ⟨p⟩
    loadSceneJSON := fun _ => .ok ["Box"] }

/-- Environment identical to `env0` except the scene load fails. -/
def envFail : Env :=
  { env0 with loadSceneJSON := fun _ => .error () }

/-- An initialized session with manifest `manifest0` and no active scene. -/
def game0 : Game :=
  { initialized := true
    baseURL := some "https://example.com"
    dirHandle := none
    gameJSONAsset := some manifest0
    renderer := some { playing := false }
    scene := none
    gameObjectTypes := []
    gameObjectClasses := []
    loadingScene := false }

/-- A fully loaded active scene for `main.json`. -/
def sceneMain : SceneM :=
  { path := "main.json", loaded := true, afterLoadedFired := true, gameObjects := ["Box"] }

/-- `game0` with `sceneMain` active. -/
def game1 : Game := { game0 with scene := some sceneMain }

/-- An uninitialized session fresh out of the constructor. -/
def gameFresh : Game :=
  { initialized := false
    baseURL := some "base"
    dirHandle := none
    gameJSONAsset := none
    renderer := none
    scene := none
    gameObjectTypes := []
    gameObjectClasses := []
    loadingScene := false }

/-- Manifest with one scene and one game-object type. -/
def manifest2 : GameJSON :=
  { initialScene := none
    scenes := [("main", "main.json")]
    gameObjectTypes := [("Box", "types/box.json")] }

/-- Environment for `manifest2` where every load succeeds. -/
def env2 : Env :=
  { loadGameJSON := .ok manifest2
    loadTypeAsset := fun p => .ok ⟨p⟩
    loadSceneJSON := fun _ => .ok [] }

/-- Manifest declaring zero scenes. -/
def manifestEmpty : GameJSON :=
  { initialScene := none, scenes := [], gameObjectTypes := [] }

/-- An initialized session whose manifest declares zero scenes. -/
def gameNoScenes : Game := { game0 with gameJSONAsset := some manifestEmpty }

/-! ### Helper lemmas -/

theorem lookup_eq_none_of_keys {α : Type} (m : List (String × α)) (t : String)
    (h : ∀ p ∈ m, p.1 ≠ t) : m.lookup t = none := by
  induction m with
  | nil => rfl
  | cons hd tl ih =>
    obtain ⟨k, v⟩ := hd
    have hk : k ≠ t := h (k, v) (List.mem_cons_self _ _)
    have hne : (t == k) = false := beq_eq_false_iff_ne.mpr (fun he => hk he.symm)
    simp only [List.lookup, hne]
    exact ih (fun p hp => h p (List.mem_cons_of_mem _ hp))

theorem mem_jsInsert {α : Type} {m : List (String × α)} {k : String} {v : α} {p : String × α}
    (hp : p ∈ jsInsert m k v) : p.1 = k ∨ p ∈ m := by
  unfold jsInsert at hp
  split at hp
  · rcases List.mem_map.mp hp with ⟨q, hq, heq⟩
    by_cases h2 : (q.1 == k) = true
    · rw [if_pos h2] at heq
      left
      rw [← heq]
    · rw [if_neg h2] at heq
      right
      rw [← heq]
      exact hq
  · rcases List.mem_append.mp hp with h1 | h1
    · right; exact h1
    · left
      have : p = (k, v) := List.mem_singleton.mp h1
      rw [this]

theorem foldl_jsInsert_keys {α : Type} (t : String) :
    ∀ (types : List (String × α)) (m : List (String × α)),
      (∀ p ∈ m, p.1 ≠ t) → (∀ p ∈ types, p.1 ≠ t) →
      ∀ p ∈ types.foldl (fun acc np => jsInsert acc np.1 np.2) m, p.1 ≠ t := by
  intro types
  induction types with
  | nil => intro m hm _ p hp; exact hm p hp
  | cons np rest ih =>
    intro m hm htypes p hp
    refine ih (jsInsert m np.1 np.2) ?_ ?_ p hp
    · intro q hq
      rcases mem_jsInsert hq with h1 | h1
      · rw [h1]; exact htypes np (List.mem_cons_self _ _)
      · exact hm q h1
    · intro q hq
      exact htypes q (List.mem_cons_of_mem _ hq)

/-! ### Claim theorems -/

/-- Claim C1 (code_bug evidence): `loadScene` sets the `loadingScene`
guard before any check and clears it only after a successful load, so a
call that throws — here `loadScene("missing")` throwing `UnknownScene` on
an initialized session — settles with `loadingScene` still `true`, and
the next `loadScene` call is rejected by the single-flight guard with
`ConcurrentLoadError`, contrary to the claim that the flag is false once
any call settles. -/
theorem loadScene_error_guard_stuck :
    (Game.loadScene env0 game0 (.str "missing")).err = some (.unknownScene "missing")
  ∧ (Game.loadScene env0 game0 (.str "missing")).game.loadingScene = true
  ∧ (Game.loadScene env0 (Game.loadScene env0 game0 (.str "missing")).game (.str "main")).err
      = some .concurrentLoad := by
  refine ⟨rfl, rfl, rfl⟩

/-- Claim C2 (counterexample): on an initialized session with the scene
`main.json` active, `loadScene("missing")` throws `UnknownScene` but the
previously active scene has NOT been left untouched: its `beforeUnloaded`
hook and its game object's `beforeUnloaded` hook have fired, and the
session's scene slot is empty — the unload block (lines 111-120) runs
before the manifest lookup (line 122). -/
theorem loadScene_unknown_unloads_active :
    (Game.loadScene env0 game1 (.str "missing")).err = some (.unknownScene "missing")
  ∧ (Game.loadScene env0 game1 (.str "missing")).game.scene = none
  ∧ (Game.loadScene env0 game1 (.str "missing")).events
      = [.sceneBeforeUnloaded "main.json", .objBeforeUnloaded "Box"] := by
  refine ⟨rfl, rfl, rfl⟩

/-- Claim C2 (amended): `loadScene` on an initialized session with a name
whose manifest entry is absent (or falsy) fails with `UnknownScene` and
leaves the session with NO active scene; if a scene was active when the
call was made, exactly its pre-unload hooks (scene first, then each game
object in order) have fired. -/
theorem loadScene_unknown_spec (env : Env) (g : Game) (name : String) (m : GameJSON)
    (hguard : g.loadingScene = false) (hinit : g.initialized = true)
    (hm : g.gameJSONAsset = some m)
    (hlook : jsTruthy (m.scenes.lookup name) = none) :
    (Game.loadScene env g (.str name)).err = some (.unknownScene name)
  ∧ (Game.loadScene env g (.str name)).game.scene = none
  ∧ (Game.loadScene env g (.str name)).events
      = (match g.scene with
         | some s => Event.sceneBeforeUnloaded s.path :: s.gameObjects.map Event.objBeforeUnloaded
         | none => []) := by
  cases hs : g.scene with
  | some s =>
    simp [Game.loadScene, hguard, loadSceneStage2, hinit, loadSceneStage3, hs,
          loadSceneStage4, hm, hlook]
  | none =>
    simp [Game.loadScene, hguard, loadSceneStage2, hinit, loadSceneStage3, hs,
          loadSceneStage4, hm, hlook]

/-- Witness for `loadScene_unknown_spec` at a concrete session. -/
theorem loadScene_unknown_spec_witness :
    (Game.loadScene env0 game1 (.str "notThere")).err = some (.unknownScene "notThere")
  ∧ (Game.loadScene env0 game1 (.str "notThere")).game.scene = none
  ∧ (Game.loadScene env0 game1 (.str "notThere")).events
      = (match game1.scene with
         | some s => Event.sceneBeforeUnloaded s.path :: s.gameObjects.map Event.objBeforeUnloaded
         | none => []) :=
  loadScene_unknown_spec env0 game1 "notThere" manifest0 rfl rfl rfl rfl

/-- Claim C3 (counterexample): when the scene asset load fails, the
session's scene slot holds the new `Scene` whose load did NOT complete
and whose post-load hooks never fired (line 128 assigns `this.scene`
before `await this.scene.load(this)` on line 129, and the error path
leaves it there) — refuting the claim that a partially loaded scene is
never exposed in the scene slot. -/
theorem loadScene_fail_partial_scene :
    (Game.loadScene envFail game0 (.str "main")).game.scene
      = some { path := "main.json", loaded := false, afterLoadedFired := false,
               gameObjects := [] }
  ∧ (Game.loadScene envFail game0 (.str "main")).err = some .sceneLoadError := by
  refine ⟨rfl, rfl⟩

/-- Claim C3 (amended): on the success path the scene slot ends holding a
fully loaded scene whose post-load hooks have fired, but the slot is
assigned before the load completes, so when the scene load fails the
call settles with the slot holding the new, not-fully-loaded scene. -/
theorem scene_slot_spec (env : Env) (g : Game) (m : GameJSON)
    (name path : String) (objs : List String)
    (hguard : g.loadingScene = false) (hinit : g.initialized = true)
    (hm : g.gameJSONAsset = some m)
    (hlook : jsTruthy (m.scenes.lookup name) = some path) :
    (env.loadSceneJSON path = .ok objs →
       (Game.loadScene env g (.str name)).game.scene
         = some { path := path, loaded := true, afterLoadedFired := true,
                  gameObjects := objs }
       ∧ (Game.loadScene env g (.str name)).err = none)
  ∧ (env.loadSceneJSON path = .error () →
       (Game.loadScene env g (.str name)).game.scene
         = some { path := path, loaded := false, afterLoadedFired := false,
                  gameObjects := [] }
       ∧ (Game.loadScene env g (.str name)).err = some .sceneLoadError) := by
  constructor
  · intro hload
    cases hs : g.scene with
    | some s =>
      simp [Game.loadScene, hguard, loadSceneStage2, hinit, loadSceneStage3, hs,
            loadSceneStage4, hm, hlook, hload]
    | none =>
      simp [Game.loadScene, hguard, loadSceneStage2, hinit, loadSceneStage3, hs,
            loadSceneStage4, hm, hlook, hload]
  · intro hload
    cases hs : g.scene with
    | some s =>
      simp [Game.loadScene, hguard, loadSceneStage2, hinit, loadSceneStage3, hs,
            loadSceneStage4, hm, hlook, hload]
    | none =>
      simp [Game.loadScene, hguard, loadSceneStage2, hinit, loadSceneStage3, hs,
            loadSceneStage4, hm, hlook, hload]

/-- Witness for `scene_slot_spec` at a concrete session (success side). -/
theorem scene_slot_spec_witness :
    (Game.loadScene env0 game0 (.str "main")).game.scene
      = some { path := "main.json", loaded := true, afterLoadedFired := true,
               gameObjects := ["Box"] }
  ∧ (Game.loadScene env0 game0 (.str "main")).err = none :=
  (scene_slot_spec env0 game0 manifest0 "main" "main.json" ["Box"] rfl rfl rfl rfl).1 rfl

/-- Claim C5: a `loadScene` call made while `loadingScene` is set throws
`ConcurrentLoadError` immediately — the state is returned unchanged and
no loading work (no event) is performed. -/
theorem loadScene_single_flight (env : Env) (g : Game) (arg : JSArg)
    (h : g.loadingScene = true) :
    Game.loadScene env g arg = ⟨g, some .concurrentLoad, []⟩ := by
  simp [Game.loadScene, h]

/-- Witness for `loadScene_single_flight` at a concrete busy session. -/
theorem loadScene_single_flight_witness :
    Game.loadScene env0 { game0 with loadingScene := true } (.str "main")
      = ⟨{ game0 with loadingScene := true }, some .concurrentLoad, []⟩ :=
  loadScene_single_flight env0 { game0 with loadingScene := true } (.str "main") rfl

/-- Claim C4: when `loadScene` replaces an active scene and the new scene
loads successfully, the event trace is exactly: the old scene's
pre-unload hook, then each of its game objects' pre-unload hooks, then
the new scene's load start and finish, and only then the new scene's
post-load hook followed by each new game object's post-load hook — so
every unload hook precedes every hook of the new scene, and post-load
hooks fire only after the whole new scene has finished loading. -/
theorem loadScene_hook_ordering (env : Env) (g : Game) (m : GameJSON) (old : SceneM)
    (name path : String) (objs : List String)
    (hguard : g.loadingScene = false) (hinit : g.initialized = true)
    (hm : g.gameJSONAsset = some m) (hscene : g.scene = some old)
    (hlook : jsTruthy (m.scenes.lookup name) = some path)
    (hload : env.loadSceneJSON path = .ok objs) :
    (Game.loadScene env g (.str name)).events
      = (Event.sceneBeforeUnloaded old.path :: old.gameObjects.map Event.objBeforeUnloaded)
        ++ ([Event.sceneLoadStart path, Event.sceneLoadFinish path,
             Event.sceneAfterLoaded path]
            ++ objs.map Event.objAfterLoaded) := by
  simp [Game.loadScene, hguard, loadSceneStage2, hinit, loadSceneStage3, hscene,
        loadSceneStage4, hm, hlook, hload]

/-- Witness for `loadScene_hook_ordering` at a concrete session. -/
theorem loadScene_hook_ordering_witness :
    (Game.loadScene env0 game1 (.str "main")).events
      = (Event.sceneBeforeUnloaded sceneMain.path
           :: sceneMain.gameObjects.map Event.objBeforeUnloaded)
        ++ ([Event.sceneLoadStart "main.json", Event.sceneLoadFinish "main.json",
             Event.sceneAfterLoaded "main.json"]
            ++ (["Box"].map Event.objAfterLoaded)) :=
  loadScene_hook_ordering env0 game1 manifest0 sceneMain "main" "main.json" ["Box"]
    rfl rfl rfl rfl rfl rfl

/-- Claim C8: the constructor rejects an argument that is neither a
string nor a directory handle; a string base URL is stored with a
trailing slash stripped and no directory handle; a directory handle is
stored with no base URL — the two modes are mutually exclusive. -/
theorem construct_spec (s : String) (h : Nat) :
    Game.construct .other = .error .constructorArg
  ∧ ((s.back == '/') = false →
       (Game.construct (.str s)).toOption.map Game.baseURL = some (some s)
     ∧ (Game.construct (.str s)).toOption.map Game.dirHandle = some none)
  ∧ ((s.back == '/') = true →
       (Game.construct (.str s)).toOption.map Game.baseURL = some (some (s.dropRight 1))
     ∧ (Game.construct (.str s)).toOption.map Game.dirHandle = some none)
  ∧ ((Game.construct (.dirHandle h)).toOption.map Game.baseURL = some none
     ∧ (Game.construct (.dirHandle h)).toOption.map Game.dirHandle = some (some h)) := by
  refine ⟨rfl, ?_, ?_, ⟨rfl, rfl⟩⟩
  · intro he
    simp [Game.construct, Except.toOption, he]
  · intro he
    simp [Game.construct, Except.toOption, he]

/-- Witness for `construct_spec`: a base URL with a trailing slash. -/
theorem construct_spec_witness :
    (Game.construct (.str "https://x/")).toOption.map Game.baseURL = some (some "https://x")
  ∧ (Game.construct (.str "https://x/")).toOption.map Game.dirHandle = some none :=
  (construct_spec "https://x/" 7).2.2.1 (by decide)

/-- Claim C9: the registry lookups return no value, not an error, for
unknown type names: `getGameObjectClass` on a session whose class
registry was populated by `registerGameObjectClasses` returns `none` for
a type not among the registered ones, and `getGameObjectTypeJSON`
returns no descriptor for a type absent from the loaded type table. -/
theorem registry_lookup_spec (g0 g : Game) (types : List (String × GOClass)) (t : String)
    (hempty : g0.gameObjectClasses = [])
    (hnot : ∀ p ∈ types, p.1 ≠ t)
    (hnot2 : ∀ p ∈ g.gameObjectTypes, p.1 ≠ t) :
    Game.getGameObjectClass (Game.registerGameObjectClasses g0 types) t = none
  ∧ Game.getGameObjectTypeJSON g t = none := by
  constructor
  · show (types.foldl (fun m np => jsInsert m np.1 np.2) g0.gameObjectClasses).lookup t = none
    rw [hempty]
    exact lookup_eq_none_of_keys _ _
      (foldl_jsInsert_keys t types []
        (fun p hp => absurd hp (List.not_mem_nil p)) hnot)
  · exact lookup_eq_none_of_keys _ _ hnot2

/-- Witness for `registry_lookup_spec` at a concrete registry. -/
theorem registry_lookup_spec_witness :
    Game.getGameObjectClass
      (Game.registerGameObjectClasses gameFresh [("Player", ⟨1⟩)]) "Enemy" = none
  ∧ Game.getGameObjectTypeJSON game0 "Enemy" = none :=
  registry_lookup_spec gameFresh game0 [("Player", ⟨1⟩)] "Enemy" rfl
    (by intro p hp; simp at hp; subst hp; decide)
    (by intro p hp; simp [game0] at hp)

/-- Claim C10: `pause` is total: with no renderer constructed it returns
the state unchanged, and with a renderer it only replaces the renderer
by its paused version, leaving every other session field unchanged. -/
theorem pause_spec (g : Game) (r : RendererM) :
    (g.renderer = none → Game.pause g = g)
  ∧ (g.renderer = some r →
       (Game.pause g).renderer = some (RendererM.pause r)
     ∧ (Game.pause g).initialized = g.initialized
     ∧ (Game.pause g).baseURL = g.baseURL
     ∧ (Game.pause g).dirHandle = g.dirHandle
     ∧ (Game.pause g).gameJSONAsset = g.gameJSONAsset
     ∧ (Game.pause g).scene = g.scene
     ∧ (Game.pause g).gameObjectTypes = g.gameObjectTypes
     ∧ (Game.pause g).gameObjectClasses = g.gameObjectClasses
     ∧ (Game.pause g).loadingScene = g.loadingScene) := by
  constructor
  · intro h
    simp [Game.pause, h]
  · intro h
    simp [Game.pause, h]

/-- Witness for `pause_spec` at a concrete initialized session. -/
theorem pause_spec_witness :
    (Game.pause game0).renderer = some (RendererM.pause { playing := false })
  ∧ (Game.pause game0).initialized = game0.initialized
  ∧ (Game.pause game0).baseURL = game0.baseURL
  ∧ (Game.pause game0).dirHandle = game0.dirHandle
  ∧ (Game.pause game0).gameJSONAsset = game0.gameJSONAsset
  ∧ (Game.pause game0).scene = game0.scene
  ∧ (Game.pause game0).gameObjectTypes = game0.gameObjectTypes
  ∧ (Game.pause game0).gameObjectClasses = game0.gameObjectClasses
  ∧ (Game.pause game0).loadingScene = game0.loadingScene :=
  (pause_spec game0 { playing := false }).2 rfl

/-! ### Lemmas about the init type-loading loop -/

theorem loadTypesLoop_ok_iff (env : Env) :
    ∀ (l : List (String × String)) (acc : List (String × JSONAsset)),
      (loadTypesLoop env l acc).2 = none
        ↔ ∀ np ∈ l, ∃ a, env.loadTypeAsset np.2 = .ok a := by
  intro l
  induction l with
  | nil =>
    intro acc
    simp [loadTypesLoop]
  | cons np rest ih =>
    intro acc
    obtain ⟨n, p⟩ := np
    cases he : env.loadTypeAsset p with
    | error e =>
      simp only [loadTypesLoop, he]
      constructor
      · intro h
        cases h
      · intro h
        rcases h (n, p) (List.mem_cons_self _ _) with ⟨a, ha⟩
        rw [he] at ha
        cases ha
    | ok a =>
      simp only [loadTypesLoop, he, List.forall_mem_cons, ih]
      constructor
      · intro h
        exact ⟨⟨a, rfl⟩, h⟩
      · intro h
        exact h.2

theorem loadTypesLoop_shape (env : Env) :
    ∀ (l : List (String × String)) (acc : List (String × JSONAsset)),
      (l.map Prod.fst).Nodup →
      (∀ k ∈ l.map Prod.fst, ∀ q ∈ acc, q.1 ≠ k) →
      (loadTypesLoop env l acc).2 = none →
      ∃ tail, (loadTypesLoop env l acc).1 = acc ++ tail
        ∧ List.Forall₂ (fun (np : String × String) (r : String × JSONAsset) =>
            r.1 = np.1 ∧ env.loadTypeAsset np.2 = .ok r.2) l tail := by
  intro l
  induction l with
  | nil =>
    intro acc _ _ _
    exact ⟨[], by simp [loadTypesLoop], List.Forall₂.nil⟩
  | cons np rest ih =>
    intro acc hnd hdisj hok
    obtain ⟨n, p⟩ := np
    cases he : env.loadTypeAsset p with
    | error e =>
      rw [show loadTypesLoop env ((n, p) :: rest) acc
            = (acc, some (.assetLoadError p)) by simp [loadTypesLoop, he]] at hok
      cases hok
    | ok a =>
      have hcond : (acc.any fun q => q.1 == n) = false := by
        rw [List.any_eq_false]
        intro q hq
        simp only [beq_iff_eq]
        exact hdisj n (by simp) q hq
      have hins : jsInsert acc n a = acc ++ [(n, a)] := by
        unfold jsInsert
        rw [hcond]
        simp
      have hstep : loadTypesLoop env ((n, p) :: rest) acc
          = loadTypesLoop env rest (acc ++ [(n, a)]) := by
        simp [loadTypesLoop, he, hins]
      rw [hstep] at hok ⊢
      have hnd2 : (rest.map Prod.fst).Nodup := (List.nodup_cons.mp (by simpa using hnd)).2
      have hnotin : n ∉ rest.map Prod.fst := (List.nodup_cons.mp (by simpa using hnd)).1
      have hdisj2 : ∀ k ∈ rest.map Prod.fst, ∀ q ∈ acc ++ [(n, a)], q.1 ≠ k := by
        intro k hk q hq
        rcases List.mem_append.mp hq with h1 | h1
        · exact hdisj k (List.mem_cons_of_mem _ hk) q h1
        · have hqe : q = (n, a) := List.mem_singleton.mp h1
          rw [hqe]
          show n ≠ k
          intro hc
          rw [← hc] at hk
          exact hnotin hk
      rcases ih (acc ++ [(n, a)]) hnd2 hdisj2 hok with ⟨tail, htail, hf⟩
      refine ⟨(n, a) :: tail, ?_, List.Forall₂.cons ⟨rfl, he⟩ hf⟩
      rw [htail]
      simp

/-- If `_init` settles without error, the session ends initialized. -/
theorem init_ok_initialized (env : Env) (g : Game)
    (h : (Game._init env g).2 = none) : ((Game._init env g).1).initialized = true := by
  unfold Game._init at h ⊢
  cases hi : g.initialized with
  | true => simp [hi] at h
  | false =>
    simp only [hi, Bool.false_eq_true, if_false] at h ⊢
    cases hgj : env.loadGameJSON with
    | error e => simp [hgj] at h
    | ok mj =>
      simp only [hgj] at h ⊢
      cases hsnd : (loadTypesLoop env mj.gameObjectTypes g.gameObjectTypes).2 with
      | some e => simp [hsnd] at h
      | none => simp [hsnd]

/-- Claim C6: `_init` on an uninitialized session loads the manifest and
then every declared game-object type eagerly, sequentially, in manifest
declaration order, registering each in the type table (the resulting
table pairs each manifest entry, in order, with its loaded asset); if
the manifest load or any type load fails, `_init` returns the error and
the session stays uninitialized, and a failing type load does make
`_init` fail. -/
theorem init_spec (env : Env) (g : Game) (m : GameJSON)
    (h0 : g.initialized = false) (hfresh : g.gameObjectTypes = [])
    (hnd : (m.gameObjectTypes.map Prod.fst).Nodup) :
    ((Game._init env g).2.isSome → ((Game._init env g).1).initialized = false)
  ∧ (env.loadGameJSON = .ok m →
       ((∃ np ∈ m.gameObjectTypes, env.loadTypeAsset np.2 = .error ())
          → (Game._init env g).2.isSome)
     ∧ ((Game._init env g).2 = none →
          ((Game._init env g).1).initialized = true
        ∧ ((Game._init env g).1).gameJSONAsset = some m
        ∧ List.Forall₂ (fun (np : String × String) (r : String × JSONAsset) =>
              r.1 = np.1 ∧ env.loadTypeAsset np.2 = .ok r.2)
            m.gameObjectTypes (((Game._init env g).1).gameObjectTypes))) := by
  constructor
  · intro hsome
    unfold Game._init at hsome ⊢
    simp only [h0, Bool.false_eq_true, if_false] at hsome ⊢
    cases hgj : env.loadGameJSON with
    | error e => simp [hgj, h0]
    | ok mj =>
      simp only [hgj] at hsome ⊢
      cases hsnd : (loadTypesLoop env mj.gameObjectTypes g.gameObjectTypes).2 with
      | some e => simp [hsnd, h0]
      | none => simp [hsnd] at hsome
  · intro hgj
    constructor
    · intro hfail
      rcases hfail with ⟨np, hmem, herr⟩
      unfold Game._init
      simp only [h0, Bool.false_eq_true, if_false, hgj]
      cases hsnd : (loadTypesLoop env m.gameObjectTypes g.gameObjectTypes).2 with
      | some e => simp [hsnd]
      | none =>
        exfalso
        rcases (loadTypesLoop_ok_iff env m.gameObjectTypes g.gameObjectTypes).mp hsnd
          np hmem with ⟨a, ha⟩
        rw [herr] at ha
        cases ha
    · intro hok
      have hsnd : (loadTypesLoop env m.gameObjectTypes g.gameObjectTypes).2 = none := by
        unfold Game._init at hok
        simp only [h0, Bool.false_eq_true, if_false, hgj] at hok
        cases hsnd2 : (loadTypesLoop env m.gameObjectTypes g.gameObjectTypes).2 with
        | some e => simp [hsnd2] at hok
        | none => rfl
      rcases loadTypesLoop_shape env m.gameObjectTypes g.gameObjectTypes hnd
        (by rw [hfresh]; intro k _ q hq; cases hq) hsnd with ⟨tail, htail, hf⟩
      have h2 : ((Game._init env g).1).gameJSONAsset = some m := by
        unfold Game._init
        simp [h0, hgj, hsnd]
      have h3 : ((Game._init env g).1).gameObjectTypes
          = (loadTypesLoop env m.gameObjectTypes g.gameObjectTypes).1 := by
        unfold Game._init
        simp [h0, hgj, hsnd]
      refine ⟨init_ok_initialized env g hok, h2, ?_⟩
      rw [h3, htail, hfresh, List.nil_append]
      exact hf

/-- Witness for `init_spec` at a concrete manifest with one type. -/
theorem init_spec_witness :
    ((Game._init env2 gameFresh).1).initialized = true
  ∧ ((Game._init env2 gameFresh).1).gameJSONAsset = some manifest2
  ∧ List.Forall₂ (fun (np : String × String) (r : String × JSONAsset) =>
        r.1 = np.1 ∧ env2.loadTypeAsset np.2 = .ok r.2)
      manifest2.gameObjectTypes (((Game._init env2 gameFresh).1).gameObjectTypes) :=
  ((init_spec env2 gameFresh manifest2 rfl rfl (by decide)).2 rfl).2 rfl

/-! ### Preservation lemmas for `play` -/

theorem loadSceneStage4_initialized (env : Env) (g : Game) (name : String)
    (evs : List Event) :
    ((loadSceneStage4 env g name evs).game).initialized = g.initialized := by
  unfold loadSceneStage4
  split
  · rfl
  · split
    · rfl
    · rfl

theorem loadSceneStage3_initialized (env : Env) (g : Game) (name : String) :
    ((loadSceneStage3 env g name).game).initialized = g.initialized := by
  unfold loadSceneStage3
  split
  · rw [loadSceneStage4_initialized]
  · rw [loadSceneStage4_initialized]

theorem loadScene_initialized (env : Env) (g : Game) (arg : JSArg)
    (hinit : g.initialized = true) :
    ((Game.loadScene env g arg).game).initialized = true := by
  unfold Game.loadScene
  split
  · exact hinit
  · unfold loadSceneStage2
    cases arg with
    | nonString => exact hinit
    | str name =>
      simp only [hinit, if_true]
      rw [loadSceneStage3_initialized]

theorem playStage2_initialized (env : Env) (g : Game)
    (hi : g.initialized = true) (hok : (playStage2 env g).2 = none) :
    ((playStage2 env g).1).initialized = true := by
  unfold playStage2 at hok ⊢
  cases hs : g.scene with
  | some s =>
    simp only [hs]
    exact hi
  | none =>
    simp only [hs] at hok ⊢
    cases hl : (((g.gameJSONAsset).map GameJSON.scenes).getD []) with
    | nil => simp [hl] at hok
    | cons hd tl =>
      obtain ⟨n, p⟩ := hd
      simp only [hl] at hok ⊢
      cases hr : Game.loadScene env g
          (.str (jsOr (((g.gameJSONAsset).map GameJSON.initialScene).getD none) n)) with
      | mk g2 e2 evs =>
        cases e2 with
        | some e => simp [hr] at hok
        | none =>
          simp only [hr]
          have := loadScene_initialized env g
            (.str (jsOr (((g.gameJSONAsset).map GameJSON.initialScene).getD none) n)) hi
          rw [hr] at this
          exact this

/-- Claim C7: `play` auto-initializes (a `play` call that settles without
error leaves the session initialized, also when it started
uninitialized); on an initialized session with no active scene it fails
with `NoScenesDefined`, leaving the state unchanged, when the manifest
declares zero scenes; and when the manifest declares at least one scene
it loads `initialScene` — or the first declared scene when `initialScene`
is unspecified — the session's resulting scene being exactly that
`loadScene` call's scene, and `play` succeeds exactly when that load
succeeds (the renderer loop starts only in that case). -/
theorem play_spec (env : Env) (g : Game) :
    (g.initialized = false → (Game.play env g).2 = none →
       ((Game.play env g).1).initialized = true)
  ∧ (∀ m, g.initialized = true → g.gameJSONAsset = some m → g.scene = none →
       m.scenes = [] → Game.play env g = (g, some .noScenesDefined))
  ∧ (∀ m n p rest, g.initialized = true → g.gameJSONAsset = some m → g.scene = none →
       m.scenes = (n, p) :: rest →
       ((Game.play env g).1.scene
          = (Game.loadScene env g (.str (jsOr m.initialScene n))).game.scene
        ∧ ((Game.play env g).2 = none
             ↔ (Game.loadScene env g (.str (jsOr m.initialScene n))).err = none))) := by
  refine ⟨?_, ?_, ?_⟩
  · intro h0 hok
    unfold Game.play at hok ⊢
    simp only [h0, Bool.false_eq_true, if_false] at hok ⊢
    cases hi : Game._init env g with
    | mk g2 e2 =>
      cases e2 with
      | some e => simp [hi] at hok
      | none =>
        simp only [hi] at hok ⊢
        have hg2 : g2.initialized = true := by
          have := init_ok_initialized env g
          rw [hi] at this
          exact this rfl
        exact playStage2_initialized env g2 hg2 hok
  · intro m hi hm hs hempty
    unfold Game.play playStage2
    simp [hi, hs, hm, hempty]
  · intro m n p rest hi hm hs hscenes
    unfold Game.play playStage2
    simp only [hi, if_true, hm, hs, Option.map_some, Option.getD_some, hscenes]
    cases hr : Game.loadScene env g (.str (jsOr m.initialScene n)) with
    | mk g2 e2 evs =>
      cases e2 with
      | some e => simp [hscenes, hr, rendererPlay]
      | none => simp [hscenes, hr, rendererPlay]

/-- Witness for `play_spec`: the zero-scenes manifest conjunct. -/
theorem play_spec_witness :
    Game.play env0 gameNoScenes = (gameNoScenes, some .noScenesDefined) :=
  (play_spec env0 gameNoScenes).2.1 manifestEmpty rfl rfl rfl rfl
